import Mathlib

/-
Verification of the altcha-lite proof-of-work CAPTCHA service.

The repository contains two variants of the same server:
* `main.go` — the current variant: a ristretto-backed replay cache guarded by
  an `ENABLE_REPLAY_DETECTION` flag, structured `200 {success:false}` failure
  responses, and a lazy expiry check (`time.Now().Before(expiresAt)`) on
  replay-cache hits.
* the unnamed variant (an earlier revision of the same file) — a `map[string]
  time.Time` cache protected by a mutex, hard HTTP errors (403 on replay, 400
  on verification failure), a fixed `cacheTTL = 3 * time.Hour`, and a
  background sweeper ticking every 15 minutes.

Time is modelled in minutes as `Int` (`time.Now()` is the current instant,
`time.Duration(n) * time.Minute` is `n`).  The external altcha library
(`CreateChallenge`, `VerifySolution`) is a trusted collaborator: a verifier is
an arbitrary function `String → VerifyOutcome`, and the challenge handler is
modelled up to the options it hands the provider.
-/

namespace AltchaLite

/-- Time instants / durations, in minutes. -/
abbrev Time := Int

/-- Environment: `os.Getenv` returns `""` for unset variables, so an
environment is a total map from names to strings with `""` meaning unset. -/
abbrev Env := String → String

/-- Outcome of `altcha.VerifySolution(payload, key, true)`: Go returns
`(verified bool, err error)`; `error msg` is `err != nil`, `invalid` is
`err == nil && !verified`, `ok` is `err == nil && verified`. -/
inductive VerifyOutcome where
  | ok : VerifyOutcome
  | invalid : VerifyOutcome
  | error (msg : String) : VerifyOutcome
deriving DecidableEq, Repr

/-- An HTTP response as the handlers produce it: `httpError` is
`http.Error(w, msg, status)`; `jsonSuccess` is `writeJSON` of
`success: true`; `jsonFailure msg` is `writeError(w, msg)`, a 200 response
with a structured body carrying `success: false` and the message. -/
inductive Response where
  | httpError (status : Nat) (msg : String) : Response
  | jsonSuccess : Response
  | jsonFailure (msg : String) : Response
deriving DecidableEq, Repr

/-- An incoming request to `/verify`: its method and the value of the
`altcha` form field (`r.FormValue` yields `""` when the field is absent, so
absent and empty coincide, as in the Go code). -/
structure Request where
  method : String
  altcha : String
deriving DecidableEq, Repr

/-- `strconv.Atoi` digit accumulation: all characters must be decimal
digits and there must be at least one. -/
def parseDigits (cs : List Char) : Option Nat :=
  match cs with
  | [] => none
  | _ =>
    cs.foldl
      (fun acc c =>
        match acc with
        | none => none
        | some n => if c.isDigit then some (n * 10 + (c.toNat - 48)) else none)
      (some 0)

/-- `strconv.Atoi`: optional single leading sign, then decimal digits only;
empty string or any other character is an error (`none`); out-of-range for a
64-bit int is an error as well. -/
def goAtoi (s : String) : Option Int :=
  match s.toList with
  | [] => none
  | c :: rest =>
    let signDigits : Bool × List Char :=
      if c = '-' then (true, rest)
      else if c = '+' then (false, rest)
      else (false, c :: rest)
    match parseDigits signDigits.2 with
    | none => none
    | some n =>
      let v : Int := if signDigits.1 then -(n : Int) else (n : Int)
      if v < -(2 ^ 63) ∨ 2 ^ 63 ≤ v then none else some v

/-- `strconv.ParseBool`: accepts exactly the twelve literal forms; everything
else is an error (`none`). -/
def goParseBool (s : String) : Option Bool :=
  if s = "1" ∨ s = "t" ∨ s = "T" ∨ s = "true" ∨ s = "TRUE" ∨ s = "True" then
    some true
  else if s = "0" ∨ s = "f" ∨ s = "F" ∨ s = "false" ∨ s = "FALSE" ∨ s = "False" then
    some false
  else
    none

namespace Config

/-- `getEnv`: the raw environment value, or the fallback when it is empty. -/
def getEnv (env : Env) (key fallback : String) : String :=
  if env key ≠ "" then env key else fallback

/-- `getEnvAsInt` from `main.go`: reads the variable (empty fallback), then
`strconv.Atoi`; any parse error yields the fallback. -/
def getEnvAsInt (env : Env) (key : String) (fallback : Int) : Int :=
  match goAtoi (getEnv env key "") with
  | some v => v
  | none => fallback

/-- `getEnvAsBool` from `main.go`: reads the variable (empty fallback), then
`strconv.ParseBool`; any parse error yields the fallback. -/
def getEnvAsBool (env : Env) (key : String) (fallback : Bool) : Bool :=
  match goParseBool (getEnv env key "") with
  | some v => v
  | none => fallback

/-- `altchaHMACKey = getEnv("ALTCHA_HMAC_KEY", "MY_ALTCHA_HMAC_KEY")`. -/
def altchaHMACKey (env : Env) : String :=
  getEnv env "ALTCHA_HMAC_KEY" "MY_ALTCHA_HMAC_KEY"

/-- `serverPort = getEnv("PORT", "3000")`. -/
def serverPort (env : Env) : String :=
  getEnv env "PORT" "3000"

/-- `expireTimeInMins = getEnvAsInt("EXPIRE_TIME_IN_MINS", 5)` (`main.go`). -/
def expireTimeInMins (env : Env) : Int :=
  getEnvAsInt env "EXPIRE_TIME_IN_MINS" 5

/-- `replayDetectionEnabled = getEnvAsBool("ENABLE_REPLAY_DETECTION", false)`. -/
def replayDetectionEnabled (env : Env) : Bool :=
  getEnvAsBool env "ENABLE_REPLAY_DETECTION" false

end Config

/-- The options `challengeHandler` passes to `altcha.CreateChallenge`:
the configured HMAC key, the literal `MaxNumber: 50000`, and
`Expires = now + expireTimeInMins minutes` (identical in both variants). -/
structure ChallengeOptions where
  hmacKey : String
  maxNumber : Nat
  expires : Time
deriving DecidableEq, Repr

/-- The challenge handler either rejects the method with 405 or calls the
Challenge Provider with concrete options. -/
inductive ChallengeResult where
  | methodNotAllowed : ChallengeResult
  | callProvider (opts : ChallengeOptions) : ChallengeResult
deriving DecidableEq, Repr

/-- The `ChallengeOptions` literal built inside `challengeHandler`. -/
def challengeOptions (hmacKey : String) (expireTimeInMins : Time) (now : Time) :
    ChallengeOptions :=
  { hmacKey := hmacKey, maxNumber := 50000, expires := now + expireTimeInMins }

/-- `challengeHandler` (identical in both variants): 405 unless the method is
GET, otherwise invoke the provider with the options above. -/
def challengeHandler (hmacKey : String) (expireTimeInMins : Time) (now : Time)
    (method : String) : ChallengeResult :=
  if method ≠ "GET" then .methodNotAllowed
  else .callProvider (challengeOptions hmacKey expireTimeInMins now)

/-- `challengeHandler` with configuration drawn from the environment, as the
package-level variables of `main.go` do. -/
def challengeHandlerEnv (env : Env) (now : Time) (method : String) :
    ChallengeResult :=
  challengeHandler (Config.altchaHMACKey env) (Config.expireTimeInMins env) now method

namespace MainGo

/-- The ristretto cache of `main.go`, keyed by the raw payload string and
valuing the stored `expiresAt`; a later `SetWithTTL` on the same key shadows
an earlier one (last write wins, as reads see ristretto). -/
structure Cache where
  entries : List (String × Time)
deriving DecidableEq, Repr

/-- `usedSolutions.Get(payload)`: the stored `expiresAt`, if present. -/
def Cache.get (c : Cache) (k : String) : Option Time :=
  (c.entries.find? (fun e => e.1 == k)).map (fun e => e.2)

/-- `usedSolutions.SetWithTTL(payload, expiresAt, 1, ttl)`: the stored value
is the computed `expiresAt`; the entry's ristretto TTL equals
`expiresAt - now`, so the stored value is the authoritative expiry. -/
def Cache.setWithTTL (c : Cache) (k : String) (v : Time) : Cache :=
  ⟨(k, v) :: c.entries⟩

/-- Process state of `main.go` relevant to `/verify`: the cache pointer
(`none` when replay detection is disabled and `usedSolutions` stays `nil`)
and the `cacheCount` occupancy counter. -/
structure ServerState where
  usedSolutions : Option Cache
  cacheCount : Int
deriving DecidableEq, Repr

/-- `main.go` lines 127–134: the replay branch fires exactly when replay
detection is enabled, the cache is non-nil, `Get` finds the payload, and
`time.Now().Before(expiresAt)` holds (strict `<`). -/
def replayHit (replayDetectionEnabled : Bool) (cache : Option Cache)
    (payload : String) (now : Time) : Bool :=
  match replayDetectionEnabled, cache with
  | true, some c =>
    match c.get payload with
    | some expiresAt => decide (now < expiresAt)
    | none => false
  | _, _ => false

/-- `verifyHandler` of `main.go`.  The result is the response, the updated
process state, and whether `altcha.VerifySolution` was invoked. -/
def verifyHandler (replayDetectionEnabled : Bool) (expireTimeInMins : Time)
    (verifySolution : String → VerifyOutcome) (now : Time)
    (st : ServerState) (r : Request) : Response × ServerState × Bool :=
  if r.method ≠ "POST" then (.httpError 405 "Method not allowed", st, false)
  else if r.altcha = "" then (.httpError 400 "Altcha payload missing", st, false)
  else if replayHit replayDetectionEnabled st.usedSolutions r.altcha now then
    (.jsonFailure "Replay detected: CAPTCHA already used", st, false)
  else
    match verifySolution r.altcha with
    | .error m => (.jsonFailure ("Verification error: " ++ m), st, true)
    | .invalid => (.jsonFailure "Invalid or expired Altcha token", st, true)
    | .ok =>
      match replayDetectionEnabled, st.usedSolutions with
      | true, some c =>
        (.jsonSuccess,
         ⟨some (c.setWithTTL r.altcha (now + expireTimeInMins)),
          st.cacheCount + 1⟩,
         true)
      | _, _ => (.jsonSuccess, st, true)

end MainGo

namespace MapVariant

/-- `cacheTTL = 3 * time.Hour`, in minutes. -/
def cacheTTL : Time := 180

/-- The `map[string]time.Time` replay cache of the earlier variant; the
stored value is the insertion instant (`time.Now()` at insert). -/
structure MapCache where
  entries : List (String × Time)
deriving DecidableEq, Repr

/-- `_, found := usedSolutions[payload]`: membership, ignoring the value. -/
def MapCache.contains (c : MapCache) (k : String) : Bool :=
  (c.entries.find? (fun e => e.1 == k)).isSome

/-- `usedSolutions[payload] = time.Now()`. -/
def MapCache.insert (c : MapCache) (k : String) (t : Time) : MapCache :=
  ⟨(k, t) :: c.entries⟩

/-- `verifyHandler` of the earlier variant: hard `http.Error` responses
(403 on a cache hit regardless of the entry's age, 400 on any verification
failure), insertion of the current instant on success. -/
def verifyHandler (verifySolution : String → VerifyOutcome) (now : Time)
    (cache : MapCache) (r : Request) : Response × MapCache × Bool :=
  if r.method ≠ "POST" then (.httpError 405 "Method not allowed", cache, false)
  else if r.altcha = "" then (.httpError 400 "Altcha payload missing", cache, false)
  else if cache.contains r.altcha then
    (.httpError 403 "Replay detected: CAPTCHA already used", cache, false)
  else
    match verifySolution r.altcha with
    | .error _ => (.httpError 400 "Invalid Altcha payload", cache, true)
    | .invalid => (.httpError 400 "Invalid Altcha payload", cache, true)
    | .ok => (.jsonSuccess, cache.insert r.altcha now, true)

/-- One tick of `startCacheCleaner`: delete every entry with
`time.Since(t) > cacheTTL`, i.e. keep those with `now - t ≤ cacheTTL`. -/
def sweepOnce (now : Time) (c : MapCache) : MapCache :=
  ⟨c.entries.filter (fun e => !decide (cacheTTL < now - e.2))⟩

/-- How many entries one sweep tick removed. -/
def sweepRemovedCount (now : Time) (c : MapCache) : Nat :=
  c.entries.length - (sweepOnce now c).entries.length

/-- `expireTimeInMins` of the earlier variant: `Atoi(getEnv(key, "5"))` with
a logged fallback to 5 on parse failure. -/
def expireTimeInMins (env : Env) : Int :=
  match goAtoi (Config.getEnv env "EXPIRE_TIME_IN_MINS" "5") with
  | some v => v
  | none => 5

end MapVariant

/-! Helper lemmas shared by the claim theorems. -/

theorem MainGo.Cache.get_setWithTTL_self (c : MainGo.Cache) (k : String) (v : Time) :
    (c.setWithTTL k v).get k = some v := by
  simp [MainGo.Cache.get, MainGo.Cache.setWithTTL, List.find?]

theorem MapVariant.MapCache.contains_insert_self (c : MapVariant.MapCache)
    (k : String) (t : Time) : (c.insert k t).contains k = true := by
  simp [MapVariant.MapCache.contains, MapVariant.MapCache.insert, List.find?]

/-- Claim C1: with replay detection enabled, a valid token not previously
inserted is accepted exactly once by `/verify` in both variants: the first
call succeeds and records the token; a second call with the same exact
payload before the cached entry's TTL elapses returns a replay failure,
leaves the state unchanged, and does not invoke the Solution Verifier (the
`Bool` component of the result is `false`). -/
theorem C1_valid_token_verifies_once (v : String → VerifyOutcome) (p : String)
    (c : MainGo.Cache) (mc : MapVariant.MapCache) (k : Int) (m now now2 : Time)
    (hp : p ≠ "") (hv : v p = .ok) (hmiss : c.get p = none)
    (hmiss2 : mc.contains p = false)
    (_h1 : now ≤ now2) (h2 : now2 < now + m)
    (_h3 : now2 < now + MapVariant.cacheTTL) :
    MainGo.verifyHandler true m v now ⟨some c, k⟩ ⟨"POST", p⟩ =
      (.jsonSuccess, ⟨some (c.setWithTTL p (now + m)), k + 1⟩, true) ∧
    MainGo.verifyHandler true m v now2
        ⟨some (c.setWithTTL p (now + m)), k + 1⟩ ⟨"POST", p⟩ =
      (.jsonFailure "Replay detected: CAPTCHA already used",
       ⟨some (c.setWithTTL p (now + m)), k + 1⟩, false) ∧
    MapVariant.verifyHandler v now mc ⟨"POST", p⟩ =
      (.jsonSuccess, mc.insert p now, true) ∧
    MapVariant.verifyHandler v now2 (mc.insert p now) ⟨"POST", p⟩ =
      (.httpError 403 "Replay detected: CAPTCHA already used",
       mc.insert p now, false) := by
  refine ⟨?_, ?_, ?_, ?_⟩
  · simp [MainGo.verifyHandler, MainGo.replayHit, hp, hv, hmiss]
  · simp [MainGo.verifyHandler, MainGo.replayHit, hp,
      MainGo.Cache.get_setWithTTL_self, h2]
  · simp [MapVariant.verifyHandler, hp, hmiss2, hv]
  · simp [MapVariant.verifyHandler, hp,
      MapVariant.MapCache.contains_insert_self]

/-- Witness for C1 at a concrete input. -/
theorem C1_valid_token_verifies_once_witness :
    MainGo.verifyHandler true 5 (fun _ => .ok) 0 ⟨some ⟨[]⟩, 0⟩ ⟨"POST", "abc123"⟩ =
      (.jsonSuccess, ⟨some ⟨[("abc123", 5)]⟩, 1⟩, true) ∧
    MainGo.verifyHandler true 5 (fun _ => .ok) 1 ⟨some ⟨[("abc123", 5)]⟩, 1⟩
        ⟨"POST", "abc123"⟩ =
      (.jsonFailure "Replay detected: CAPTCHA already used",
       ⟨some ⟨[("abc123", 5)]⟩, 1⟩, false) ∧
    MapVariant.verifyHandler (fun _ => .ok) 0 ⟨[]⟩ ⟨"POST", "abc123"⟩ =
      (.jsonSuccess, ⟨[("abc123", 0)]⟩, true) ∧
    MapVariant.verifyHandler (fun _ => .ok) 1 ⟨[("abc123", 0)]⟩
        ⟨"POST", "abc123"⟩ =
      (.httpError 403 "Replay detected: CAPTCHA already used",
       ⟨[("abc123", 0)]⟩, false) :=
  C1_valid_token_verifies_once (fun _ => .ok) "abc123" ⟨[]⟩ ⟨[]⟩ 0 5 0 1
    (by decide) rfl rfl rfl (by decide) (by decide) (by decide)

/-- Claim C3: in both variants, the replay cache is modified only after the
Solution Verifier returns success — every rejected `/verify` request
(missing payload, wrong method, replay hit, verifier error, verifier
returning false) leaves the server state unchanged. -/
theorem C3_rejected_request_preserves_cache (re : Bool) (m : Time)
    (v : String → VerifyOutcome) (now : Time) (st : MainGo.ServerState)
    (c : MapVariant.MapCache) (r : Request) :
    ((MainGo.verifyHandler re m v now st r).1 ≠ .jsonSuccess →
      (MainGo.verifyHandler re m v now st r).2.1 = st) ∧
    ((MapVariant.verifyHandler v now c r).1 ≠ .jsonSuccess →
      (MapVariant.verifyHandler v now c r).2.1 = c) := by
  constructor
  · unfold MainGo.verifyHandler
    repeat' split
    all_goals intro h
    all_goals first | rfl | exact absurd rfl h
  · unfold MapVariant.verifyHandler
    repeat' split
    all_goals intro h
    all_goals first | rfl | exact absurd rfl h

/-- Witness for C3 at a concrete rejected request (a replay hit in
`main.go`, a cache hit in the map variant). -/
theorem C3_rejected_request_preserves_cache_witness :
    (MainGo.verifyHandler true 5 (fun _ => .ok) 1 ⟨some ⟨[("abc123", 5)]⟩, 1⟩
        ⟨"POST", "abc123"⟩).2.1 = ⟨some ⟨[("abc123", 5)]⟩, 1⟩ ∧
    (MapVariant.verifyHandler (fun _ => .ok) 1 ⟨[("abc123", 0)]⟩
        ⟨"POST", "abc123"⟩).2.1 = ⟨[("abc123", 0)]⟩ :=
  ⟨(C3_rejected_request_preserves_cache true 5 (fun _ => .ok) 1
      ⟨some ⟨[("abc123", 5)]⟩, 1⟩ ⟨[("abc123", 0)]⟩ ⟨"POST", "abc123"⟩).1
      (by decide),
   (C3_rejected_request_preserves_cache true 5 (fun _ => .ok) 1
      ⟨some ⟨[("abc123", 5)]⟩, 1⟩ ⟨[("abc123", 0)]⟩ ⟨"POST", "abc123"⟩).2
      (by decide)⟩

/-- A message produced by `writeError(w, "Verification error: " + err)` never
collides with the fixed replay or invalid-token messages. -/
theorem verification_error_msg_ne (d : String) :
    "Verification error: " ++ d ≠ "Replay detected: CAPTCHA already used" ∧
    "Verification error: " ++ d ≠ "Invalid or expired Altcha token" := by
  constructor <;>
    · intro h
      have h2 := congrArg String.data h
      rw [String.data_append] at h2
      simp at h2

/-- Claim C2 counterexample: in the earlier map variant, an entry whose
expiry (`insertion time + cacheTTL`) has already passed but that has not yet
been swept is still rejected as a replay with HTTP 403, and the Solution
Verifier is not invoked — the stale key is not treated as absent. -/
theorem C2_map_variant_rejects_expired_entry :
    (0 : Int) + MapVariant.cacheTTL < 200 ∧
    MapVariant.verifyHandler (fun _ => .ok) 200 ⟨[("tok", 0)]⟩ ⟨"POST", "tok"⟩ =
      (.httpError 403 "Replay detected: CAPTCHA already used", ⟨[("tok", 0)]⟩, false) := by
  exact ⟨by decide, rfl⟩

/-- Claim C2 (amended): in `main.go`, a cached key whose `expiresAt` has
passed is treated as absent for replay detection — the request proceeds to
the Solution Verifier and produces the same response as it would against a
cache not containing the key at all.  In the earlier map variant, however,
the replay check ignores expiry: any present key is rejected as a replay
with HTTP 403 without invoking the verifier, no matter how stale. -/
theorem C2_lazy_expiry (v : String → VerifyOutcome) (p : String)
    (c c2 : MainGo.Cache) (k : Int) (m now : Time) (e : Time)
    (mc : MapVariant.MapCache) (now2 : Time)
    (hp : p ≠ "") (hfound : c.get p = some e) (hexp : e ≤ now)
    (hmiss : c2.get p = none) (hmem : mc.contains p = true) :
    (MainGo.verifyHandler true m v now ⟨some c, k⟩ ⟨"POST", p⟩).2.2 = true ∧
    (MainGo.verifyHandler true m v now ⟨some c, k⟩ ⟨"POST", p⟩).1 =
      (MainGo.verifyHandler true m v now ⟨some c2, k⟩ ⟨"POST", p⟩).1 ∧
    MapVariant.verifyHandler v now2 mc ⟨"POST", p⟩ =
      (.httpError 403 "Replay detected: CAPTCHA already used", mc, false) := by
  have hnot : ¬ (now < e) := not_lt.mpr hexp
  refine ⟨?_, ?_, ?_⟩
  · cases hvp : v p <;>
      simp [MainGo.verifyHandler, MainGo.replayHit, hp, hfound, hnot, hvp]
  · cases hvp : v p <;>
      simp [MainGo.verifyHandler, MainGo.replayHit, hp, hfound, hnot, hmiss, hvp]
  · simp [MapVariant.verifyHandler, hp, hmem]

/-- Witness for C2 (amended) at a concrete input: entry for `"tok"` expired
at time 5, current time 9. -/
theorem C2_lazy_expiry_witness :
    (MainGo.verifyHandler true 5 (fun _ => .ok) 9 ⟨some ⟨[("tok", 5)]⟩, 1⟩
        ⟨"POST", "tok"⟩).2.2 = true ∧
    (MainGo.verifyHandler true 5 (fun _ => .ok) 9 ⟨some ⟨[("tok", 5)]⟩, 1⟩
        ⟨"POST", "tok"⟩).1 =
      (MainGo.verifyHandler true 5 (fun _ => .ok) 9 ⟨some ⟨[]⟩, 1⟩
        ⟨"POST", "tok"⟩).1 ∧
    MapVariant.verifyHandler (fun _ => .ok) 9 ⟨[("tok", 5)]⟩ ⟨"POST", "tok"⟩ =
      (.httpError 403 "Replay detected: CAPTCHA already used", ⟨[("tok", 5)]⟩, false) :=
  C2_lazy_expiry (fun _ => .ok) "tok" ⟨[("tok", 5)]⟩ ⟨[]⟩ 1 5 9 5 ⟨[("tok", 5)]⟩ 9
    (by decide) rfl (by decide) rfl rfl

/-- Claim C4 counterexample: in the earlier map variant, a replay rejection
is a hard HTTP 403 and a verification failure is a hard HTTP 400 — not 200
responses with a structured body — and the verifier-false and verifier-error
causes share the message "Invalid Altcha payload", so the causes are not
distinguished. -/
theorem C4_map_variant_hard_http_errors :
    (MapVariant.verifyHandler (fun _ => .ok) 1 ⟨[("abc123", 0)]⟩
        ⟨"POST", "abc123"⟩).1 =
      .httpError 403 "Replay detected: CAPTCHA already used" ∧
    (MapVariant.verifyHandler (fun _ => .invalid) 1 ⟨[]⟩ ⟨"POST", "xyz"⟩).1 =
      .httpError 400 "Invalid Altcha payload" ∧
    (MapVariant.verifyHandler (fun _ => .error "boom") 1 ⟨[]⟩ ⟨"POST", "xyz"⟩).1 =
      .httpError 400 "Invalid Altcha payload" :=
  ⟨rfl, rfl, rfl⟩

/-- Claim C4 (amended): in `main.go`, every `/verify` request rejected as a
replay or as a verification failure yields a structured 200 JSON failure
(`success: false` with a message), never a hard HTTP error, and the three
messages — replay, invalid/expired token, verifier-internal error with
detail — are pairwise distinct.  In the earlier map variant these
rejections are instead hard HTTP errors (403 / 400). -/
theorem C4_structured_failure_responses (v : String → VerifyOutcome)
    (p msg : String) (st : MainGo.ServerState) (re : Bool) (m now : Time)
    (hp : p ≠ "") :
    (MainGo.replayHit re st.usedSolutions p now = true →
      MainGo.verifyHandler re m v now st ⟨"POST", p⟩ =
        (.jsonFailure "Replay detected: CAPTCHA already used", st, false)) ∧
    (MainGo.replayHit re st.usedSolutions p now = false → v p = .error msg →
      MainGo.verifyHandler re m v now st ⟨"POST", p⟩ =
        (.jsonFailure ("Verification error: " ++ msg), st, true)) ∧
    (MainGo.replayHit re st.usedSolutions p now = false → v p = .invalid →
      MainGo.verifyHandler re m v now st ⟨"POST", p⟩ =
        (.jsonFailure "Invalid or expired Altcha token", st, true)) ∧
    ("Replay detected: CAPTCHA already used" ≠ "Invalid or expired Altcha token" ∧
     "Verification error: " ++ msg ≠ "Replay detected: CAPTCHA already used" ∧
     "Verification error: " ++ msg ≠ "Invalid or expired Altcha token") := by
  refine ⟨?_, ?_, ?_, by decide, (verification_error_msg_ne msg).1,
    (verification_error_msg_ne msg).2⟩
  · intro hhit
    simp [MainGo.verifyHandler, hp, hhit]
  · intro hhit hv
    simp [MainGo.verifyHandler, hp, hhit, hv]
  · intro hhit hv
    simp [MainGo.verifyHandler, hp, hhit, hv]

/-- Witness for C4 (amended) at concrete inputs: a replay hit. -/
theorem C4_structured_failure_responses_witness :
    MainGo.verifyHandler true 5 (fun _ => .error "boom") 1
        ⟨some ⟨[("abc123", 5)]⟩, 1⟩ ⟨"POST", "abc123"⟩ =
      (.jsonFailure "Replay detected: CAPTCHA already used",
       ⟨some ⟨[("abc123", 5)]⟩, 1⟩, false) ∧
    MainGo.verifyHandler true 5 (fun _ => .error "boom") 9
        ⟨some ⟨[("abc123", 5)]⟩, 1⟩ ⟨"POST", "abc123"⟩ =
      (.jsonFailure ("Verification error: " ++ "boom"),
       ⟨some ⟨[("abc123", 5)]⟩, 1⟩, true) :=
  ⟨(C4_structured_failure_responses (fun _ => .error "boom") "abc123" "boom"
      ⟨some ⟨[("abc123", 5)]⟩, 1⟩ true 5 1 (by decide)).1 (by decide),
   ((C4_structured_failure_responses (fun _ => .error "boom") "abc123" "boom"
      ⟨some ⟨[("abc123", 5)]⟩, 1⟩ true 5 9 (by decide)).2.1 (by decide) rfl)⟩

/-- Claim C5 counterexample: in the earlier map variant (default
configuration, `EXPIRE_TIME_IN_MINS = 5`), a successfully verified token is
recorded with its insertion instant and is governed by the fixed
`cacheTTL = 3 h`, not by `now + 5 min`: at time 6 (after the claimed expiry
5) the entry survives a sweep and still blocks resubmission with HTTP 403,
and only a sweep after 180 minutes removes it. -/
theorem C5_map_variant_ttl_mismatch :
    MapVariant.expireTimeInMins (fun _ => "") = 5 ∧
    (MapVariant.verifyHandler (fun _ => .ok) 0 ⟨[]⟩ ⟨"POST", "abc123"⟩).2.1 =
      ⟨[("abc123", 0)]⟩ ∧
    MapVariant.sweepOnce 6 ⟨[("abc123", 0)]⟩ = ⟨[("abc123", 0)]⟩ ∧
    (MapVariant.verifyHandler (fun _ => .ok) 6 ⟨[("abc123", 0)]⟩
        ⟨"POST", "abc123"⟩).1 =
      .httpError 403 "Replay detected: CAPTCHA already used" ∧
    MapVariant.sweepOnce 181 ⟨[("abc123", 0)]⟩ = ⟨[]⟩ :=
  ⟨by decide, rfl, by decide, rfl, by decide⟩

/-- Claim C5 (amended): in `main.go`, every successful verification with
replay detection enabled inserts the token with
`expiresAt = now + EXPIRE_TIME_IN_MINS`, the same configured TTL window the
challenge handler uses for `Expires`.  In the earlier map variant the cache
records the insertion instant instead and expiry is governed by the fixed
3-hour `cacheTTL`, independent of `EXPIRE_TIME_IN_MINS`. -/
theorem C5_insert_ttl_matches_challenge (env : Env)
    (v : String → VerifyOutcome) (p : String) (c : MainGo.Cache) (k : Int)
    (now now2 : Time)
    (hp : p ≠ "") (hv : v p = .ok)
    (hnohit : MainGo.replayHit true (some c) p now = false) :
    MainGo.verifyHandler true (Config.expireTimeInMins env) v now
        ⟨some c, k⟩ ⟨"POST", p⟩ =
      (.jsonSuccess,
       ⟨some (c.setWithTTL p (now + Config.expireTimeInMins env)), k + 1⟩,
       true) ∧
    challengeHandlerEnv env now2 "GET" =
      .callProvider
        ⟨Config.altchaHMACKey env, 50000, now2 + Config.expireTimeInMins env⟩ := by
  constructor
  · simp [MainGo.verifyHandler, hp, hnohit, hv]
  · simp [challengeHandlerEnv, challengeHandler, challengeOptions]

/-- Witness for C5 (amended) at the default environment. -/
theorem C5_insert_ttl_matches_challenge_witness :
    MainGo.verifyHandler true (Config.expireTimeInMins (fun _ => ""))
        (fun _ => .ok) 0 ⟨some ⟨[]⟩, 0⟩ ⟨"POST", "abc123"⟩ =
      (.jsonSuccess,
       ⟨some (MainGo.Cache.setWithTTL ⟨[]⟩ "abc123"
          (0 + Config.expireTimeInMins (fun _ => ""))), 0 + 1⟩,
       true) ∧
    challengeHandlerEnv (fun _ => "") 7 "GET" =
      .callProvider
        ⟨Config.altchaHMACKey (fun _ => ""), 50000,
         7 + Config.expireTimeInMins (fun _ => "")⟩ :=
  C5_insert_ttl_matches_challenge (fun _ => "") (fun _ => .ok) "abc123" ⟨[]⟩ 0 0 7
    (by decide) rfl rfl

theorem length_sub_length_filter {α : Type} (l : List α) (p : α → Bool) :
    l.length - (l.filter p).length = (l.filter (fun a => !p a)).length := by
  induction l with
  | nil => rfl
  | cons a t ih =>
    have hle := List.length_filter_le p t
    by_cases h : p a = true <;>
      simp only [List.filter_cons, h, List.length_cons, Bool.not_true,
        Bool.not_false, if_true, if_false, Bool.false_eq_true, ite_true,
        ite_false] <;>
      omega

/-- Claim C6 counterexample: an entry whose expiry instant
(`insertion time + cacheTTL`) equals the current time — i.e. `expires_at ≤
now` — is NOT removed by the sweep (the code tests `time.Since(t) >
cacheTTL` strictly), and the sweep's removal count there is 0, not 1. -/
theorem C6_boundary_entry_not_removed :
    (0 : Int) + MapVariant.cacheTTL ≤ 180 ∧
    MapVariant.sweepOnce 180 ⟨[("tok", 0)]⟩ = ⟨[("tok", 0)]⟩ ∧
    MapVariant.sweepRemovedCount 180 ⟨[("tok", 0)]⟩ = 0 :=
  ⟨by decide, by decide, by decide⟩

/-- Claim C6 (amended): one tick of the background sweep keeps exactly the
entries whose expiry instant (`insertion time + cacheTTL`) is at or after
the current time, i.e. it removes exactly the entries whose expiry is
STRICTLY before `now` (an entry expiring exactly at `now` is kept), and the
number of removed entries equals the number of such strictly-expired entries
present at sweep time. -/
theorem C6_sweep_removes_strictly_expired (now : Time) (c : MapVariant.MapCache) :
    (MapVariant.sweepOnce now c).entries =
      c.entries.filter (fun e => decide (now ≤ e.2 + MapVariant.cacheTTL)) ∧
    MapVariant.sweepRemovedCount now c =
      (c.entries.filter (fun e => decide (e.2 + MapVariant.cacheTTL < now))).length := by
  have hint : ∀ n t : Int,
      (!decide ((180 : Int) < n - t)) = decide (n ≤ t + (180 : Int)) := by
    intro n t
    simp only [← decide_not, decide_eq_decide]
    omega
  have hint2 : ∀ n t : Int,
      (!(!decide ((180 : Int) < n - t))) = decide (t + (180 : Int) < n) := by
    intro n t
    simp only [Bool.not_not, decide_eq_decide]
    omega
  have hpt : ∀ e : String × Time,
      (!decide (MapVariant.cacheTTL < now - e.2)) =
        decide (now ≤ e.2 + MapVariant.cacheTTL) := fun e => hint now e.2
  have hpt2 : ∀ e : String × Time,
      (!(!decide (MapVariant.cacheTTL < now - e.2))) =
        decide (e.2 + MapVariant.cacheTTL < now) := fun e => hint2 now e.2
  constructor
  · rw [MapVariant.sweepOnce]
    exact List.filter_congr (fun a _ => hpt a)
  · rw [MapVariant.sweepRemovedCount, MapVariant.sweepOnce]
    rw [length_sub_length_filter]
    exact congrArg List.length (List.filter_congr (fun a _ => hpt2 a))

theorem MainGo.replayHit_false (oc : Option MainGo.Cache) (q : String) (t : Time) :
    MainGo.replayHit false oc q t = false := rfl

/-- Claim C7: with replay detection disabled, the cache path is fully
bypassed in `main.go`: the server state is never modified, the response is
independent of the cache contents (no read), and the same valid token
succeeds on two consecutive submissions. -/
theorem C7_disabled_bypasses_cache (m : Time) (v : String → VerifyOutcome)
    (now now2 : Time) (st st2 : MainGo.ServerState) (r : Request) (p : String)
    (hp : p ≠ "") (hv : v p = .ok) :
    (MainGo.verifyHandler false m v now st r).2.1 = st ∧
    (MainGo.verifyHandler false m v now st r).1 =
      (MainGo.verifyHandler false m v now st2 r).1 ∧
    MainGo.verifyHandler false m v now st ⟨"POST", p⟩ =
      (.jsonSuccess, st, true) ∧
    MainGo.verifyHandler false m v now2 st ⟨"POST", p⟩ =
      (.jsonSuccess, st, true) := by
  refine ⟨?_, ?_, ?_, ?_⟩
  · unfold MainGo.verifyHandler
    repeat' split
    all_goals first | rfl | simp_all [MainGo.replayHit_false]
  · unfold MainGo.verifyHandler
    repeat' split
    all_goals first | rfl | simp_all [MainGo.replayHit_false]
  · simp [MainGo.verifyHandler, MainGo.replayHit_false, hp, hv]
  · simp [MainGo.verifyHandler, MainGo.replayHit_false, hp, hv]

/-- Witness for C7: the cache already holds the token, yet with the flag off
both submissions succeed and the state survives untouched. -/
theorem C7_disabled_bypasses_cache_witness :
    (MainGo.verifyHandler false 5 (fun _ => .ok) 0
        ⟨some ⟨[("abc123", 99)]⟩, 1⟩ ⟨"POST", "abc123"⟩).2.1 =
      ⟨some ⟨[("abc123", 99)]⟩, 1⟩ ∧
    MainGo.verifyHandler false 5 (fun _ => .ok) 0
        ⟨some ⟨[("abc123", 99)]⟩, 1⟩ ⟨"POST", "abc123"⟩ =
      (.jsonSuccess, ⟨some ⟨[("abc123", 99)]⟩, 1⟩, true) ∧
    MainGo.verifyHandler false 5 (fun _ => .ok) 1
        ⟨some ⟨[("abc123", 99)]⟩, 1⟩ ⟨"POST", "abc123"⟩ =
      (.jsonSuccess, ⟨some ⟨[("abc123", 99)]⟩, 1⟩, true) :=
  ⟨(C7_disabled_bypasses_cache 5 (fun _ => .ok) 0 1 ⟨some ⟨[("abc123", 99)]⟩, 1⟩
      ⟨some ⟨[("abc123", 99)]⟩, 1⟩ ⟨"POST", "abc123"⟩ "abc123" (by decide) rfl).1,
   (C7_disabled_bypasses_cache 5 (fun _ => .ok) 0 1 ⟨some ⟨[("abc123", 99)]⟩, 1⟩
      ⟨some ⟨[("abc123", 99)]⟩, 1⟩ ⟨"POST", "abc123"⟩ "abc123" (by decide) rfl).2.2.1,
   (C7_disabled_bypasses_cache 5 (fun _ => .ok) 0 1 ⟨some ⟨[("abc123", 99)]⟩, 1⟩
      ⟨some ⟨[("abc123", 99)]⟩, 1⟩ ⟨"POST", "abc123"⟩ "abc123" (by decide) rfl).2.2.2⟩

/-- Claim C8: request preconditions are enforced before any cache or
verifier interaction, in both variants: a GET on `/verify` yields 405, a
POST on `/challenge` yields 405, and a `/verify` POST with an absent or
empty `altcha` field yields 400 — each leaving the state unchanged with the
verifier not invoked. -/
theorem C8_method_and_payload_preconditions (re : Bool) (m : Time)
    (v : String → VerifyOutcome) (now : Time) (st : MainGo.ServerState)
    (c : MapVariant.MapCache) (hk : String) (p : String) :
    MainGo.verifyHandler re m v now st ⟨"GET", p⟩ =
      (.httpError 405 "Method not allowed", st, false) ∧
    MainGo.verifyHandler re m v now st ⟨"POST", ""⟩ =
      (.httpError 400 "Altcha payload missing", st, false) ∧
    MapVariant.verifyHandler v now c ⟨"GET", p⟩ =
      (.httpError 405 "Method not allowed", c, false) ∧
    MapVariant.verifyHandler v now c ⟨"POST", ""⟩ =
      (.httpError 400 "Altcha payload missing", c, false) ∧
    challengeHandler hk m now "POST" = .methodNotAllowed :=
  ⟨rfl, rfl, rfl, rfl, rfl⟩

/-- Claim C9: configuration parsing falls back to the compiled-in default
both when the environment value is empty (unset) and when it is non-empty
but unparseable: a non-integer `EXPIRE_TIME_IN_MINS` yields 5 (in both
variants) and an `ENABLE_REPLAY_DETECTION` outside Go's `ParseBool` forms
(such as "yes") yields `false`; an empty value of any variable yields its
default string. -/
theorem C9_env_parse_fallbacks (env : Env) :
    (env "EXPIRE_TIME_IN_MINS" = "" →
      Config.expireTimeInMins env = 5 ∧ MapVariant.expireTimeInMins env = 5) ∧
    (goAtoi (env "EXPIRE_TIME_IN_MINS") = none →
      Config.expireTimeInMins env = 5 ∧ MapVariant.expireTimeInMins env = 5) ∧
    (env "ENABLE_REPLAY_DETECTION" = "" →
      Config.replayDetectionEnabled env = false) ∧
    (goParseBool (env "ENABLE_REPLAY_DETECTION") = none →
      Config.replayDetectionEnabled env = false) ∧
    (∀ key fallback, env key = "" → Config.getEnv env key fallback = fallback) ∧
    goAtoi "abc" = none ∧ goParseBool "yes" = none := by
  refine ⟨?_, ?_, ?_, ?_, ?_, by decide, by decide⟩
  · intro h
    constructor <;>
      simp [Config.expireTimeInMins, Config.getEnvAsInt, Config.getEnv,
        MapVariant.expireTimeInMins, h, goAtoi, parseDigits]
  · intro h
    by_cases he : env "EXPIRE_TIME_IN_MINS" = ""
    · constructor <;>
        simp [Config.expireTimeInMins, Config.getEnvAsInt, Config.getEnv,
          MapVariant.expireTimeInMins, he, goAtoi, parseDigits]
    · constructor <;>
        simp [Config.expireTimeInMins, Config.getEnvAsInt, Config.getEnv,
          MapVariant.expireTimeInMins, he, h]
  · intro h
    simp [Config.replayDetectionEnabled, Config.getEnvAsBool, Config.getEnv,
      h, goParseBool]
  · intro h
    by_cases he : env "ENABLE_REPLAY_DETECTION" = ""
    · simp [Config.replayDetectionEnabled, Config.getEnvAsBool, Config.getEnv,
        he, goParseBool]
    · simp [Config.replayDetectionEnabled, Config.getEnvAsBool, Config.getEnv,
        he, h]
  · intro key fallback h
    simp [Config.getEnv, h]

/-- Witness for C9 at a concrete environment (`EXPIRE_TIME_IN_MINS=abc`,
`ENABLE_REPLAY_DETECTION=yes`). -/
theorem C9_env_parse_fallbacks_witness :
    Config.expireTimeInMins
        (fun k => if k = "EXPIRE_TIME_IN_MINS" then "abc" else "yes") = 5 ∧
    MapVariant.expireTimeInMins
        (fun k => if k = "EXPIRE_TIME_IN_MINS" then "abc" else "yes") = 5 ∧
    Config.replayDetectionEnabled
        (fun k => if k = "EXPIRE_TIME_IN_MINS" then "abc" else "yes") = false :=
  ⟨((C9_env_parse_fallbacks
      (fun k => if k = "EXPIRE_TIME_IN_MINS" then "abc" else "yes")).2.1
      (by decide)).1,
   ((C9_env_parse_fallbacks
      (fun k => if k = "EXPIRE_TIME_IN_MINS" then "abc" else "yes")).2.1
      (by decide)).2,
   (C9_env_parse_fallbacks
      (fun k => if k = "EXPIRE_TIME_IN_MINS" then "abc" else "yes")).2.2.2.1
      (by decide)⟩

/-- Claim C10: every GET `/challenge` request invokes the Challenge Provider
with the proof-of-work bound fixed at the literal 50000, identically for
every environment — while the TTL, port and HMAC secret do vary with the
environment. -/
theorem C10_max_number_fixed (env : Env) (now : Time) :
    challengeHandlerEnv env now "GET" =
      .callProvider
        (challengeOptions (Config.altchaHMACKey env)
          (Config.expireTimeInMins env) now) ∧
    (challengeOptions (Config.altchaHMACKey env)
      (Config.expireTimeInMins env) now).maxNumber = 50000 ∧
    (∀ env2 : Env,
      (challengeOptions (Config.altchaHMACKey env2)
        (Config.expireTimeInMins env2) now).maxNumber =
      (challengeOptions (Config.altchaHMACKey env)
        (Config.expireTimeInMins env) now).maxNumber) ∧
    (∃ env1 env2 : Env,
      Config.expireTimeInMins env1 ≠ Config.expireTimeInMins env2 ∧
      Config.serverPort env1 ≠ Config.serverPort env2 ∧
      Config.altchaHMACKey env1 ≠ Config.altchaHMACKey env2) :=
  ⟨rfl, rfl, fun _ => rfl,
   ⟨fun _ => "", fun _ => "7", by decide, by decide, by decide⟩⟩

end AltchaLite
